import Mathlib

/-!
Verification of the koog-sample PDF recipe-extraction workflow
(`src/langchain/main.py`, `cooking_tools.py`, `recipe_types.py`,
`pdf_service.py`).

The Python program is a LangGraph pipeline over a single `WorkflowState`
record.  External collaborators (HTTP fetch, PDF parsing, text splitting,
OpenAI embedding calls, ChromaDB similarity search, the chat-model chains
and the tool-calling agent) are modelled as explicit oracle parameters of
type `Except String _` (an `Except.error` models the Python call raising an
exception); everything the repository's own code does with their results is
translated faithfully.  Python `Optional` fields become `Option`, Python
`float` values become `Rat` (all the arithmetic the code performs on them
is exact summation).
-/

namespace KoogSample

/-- `langchain_core.documents.Document` (only `page_content` is used). -/
structure Document where
  page_content : String
deriving Repr, DecidableEq

/-- `recipe_types.Ingredient`. -/
structure Ingredient where
  name : String
  unit : String
  quantity : Rat
deriving Repr, DecidableEq

/-- `recipe_types.RecipeEntity`. -/
structure RecipeEntity where
  name : String
  ingredients : List Ingredient
deriving Repr, DecidableEq

/-- `recipe_types.PdfValidationResult`. -/
structure PdfValidationResult where
  is_recipe : Bool
  reason : String
deriving Repr, DecidableEq

/-- `recipe_types.PdfContent` (`pdf_bytes` modelled as a list of byte values). -/
structure PdfContent where
  pdf_bytes : List Nat
  extracted_text : String
deriving Repr, DecidableEq

/-- `recipe_types.DocumentChunks`. -/
structure DocumentChunks where
  original_text : String
  text_segments : List Document
deriving Repr, DecidableEq

/-- `recipe_types.ChunkEmbedding`. -/
structure ChunkEmbedding where
  chunk_text : String
  vector_embedding : List Rat
deriving Repr, DecidableEq

/-- `recipe_types.EmbeddedChunks`. -/
structure EmbeddedChunks where
  text_segments : List Document
  chunk_embeddings : List ChunkEmbedding
deriving Repr, DecidableEq

/-- `recipe_types.RecipeExtractionResult`. -/
structure RecipeExtractionResult where
  extracted_recipe : Option RecipeEntity
  total_cooking_minutes : Option Rat
deriving Repr, DecidableEq

/-- `PdfRagApp.WorkflowState` (the LangGraph `TypedDict`). -/
structure WorkflowState where
  pdf_url : String
  validation_result : Option PdfValidationResult
  pdf_content : Option PdfContent
  document_chunks : Option DocumentChunks
  embedded_chunks : Option EmbeddedChunks
  recipe_relevant_segments : Option (List Document)
  extracted_recipe : Option RecipeEntity
  total_cooking_minutes : Option Rat
  final_result : Option RecipeExtractionResult
  error : Option String
deriving Repr, DecidableEq

/-- The initial state built in `execute_langgraph_workflow`. -/
def initial_state (pdf_url : String) : WorkflowState :=
  { pdf_url := pdf_url
    validation_result := none
    pdf_content := none
    document_chunks := none
    embedded_chunks := none
    recipe_relevant_segments := none
    extracted_recipe := none
    total_cooking_minutes := none
    final_result := none
    error := none }

/-! ## `cooking_tools.sum_minutes` and the agent-trace inspection -/

/-- `cooking_tools.sum_minutes`: returns `0.0` on an empty list, otherwise
the sum of the list. -/
def sum_minutes (minutes_list : List Rat) : Rat :=
  if minutes_list.isEmpty then 0 else minutes_list.sum

/-- One entry of a message's `tool_calls` list: a tool name and the literal
argument list the model passed (for `sum_minutes`, its `minutes_list`). -/
structure ToolCall where
  name : String
  args : List Rat
deriving Repr, DecidableEq

/-- A message from an agent action's `message_log`; only its `tool_calls`
field is inspected. -/
structure AgentMessage where
  tool_calls : List ToolCall
deriving Repr, DecidableEq

/-- An `AgentAction` from the executor's `intermediate_steps`: the tool name
and the `message_log` holding the structured tool-call records. -/
structure AgentAction where
  tool : String
  message_log : List AgentMessage
deriving Repr, DecidableEq

/-- The dict returned by `AgentExecutor.invoke`: the model's free-text
`output` and the `intermediate_steps` list of (action, observation) pairs. -/
structure AgentResult where
  output : String
  intermediate_steps : List (AgentAction × String)
deriving Repr, DecidableEq

/-- The inner `for tool_call in message.tool_calls` loop of
`_extract_sum_minutes_from_agent_result`: first tool call named
`sum_minutes`, if any. -/
def first_sum_minutes_call : List ToolCall → Option (List Rat)
  | [] => none
  | tc :: rest =>
    if tc.name = "sum_minutes" then some tc.args else first_sum_minutes_call rest

/-- The outer `for step in intermediate_steps` loop of
`_extract_sum_minutes_from_agent_result`: a step is used only when its
action's tool is `sum_minutes`, its `message_log` is non-empty and the first
message holds a `sum_minutes` tool call; the host then executes
`sum_minutes` itself on that call's literal arguments. -/
def scan_steps_for_sum_minutes : List (AgentAction × String) → Option Rat
  | [] => none
  | (action, _) :: rest =>
    if action.tool = "sum_minutes" then
      match action.message_log with
      | [] => scan_steps_for_sum_minutes rest
      | message :: _ =>
        match first_sum_minutes_call message.tool_calls with
        | some args => some (sum_minutes args)
        | none => scan_steps_for_sum_minutes rest
    else scan_steps_for_sum_minutes rest

/-- `PdfRagApp._extract_sum_minutes_from_agent_result`. -/
def extract_sum_minutes_from_agent_result (result : AgentResult) : Option Rat :=
  scan_steps_for_sum_minutes result.intermediate_steps

/-- Whether any intermediate step's action names the `sum_minutes` tool. -/
def trace_has_sum_minutes (result : AgentResult) : Bool :=
  result.intermediate_steps.any fun step => step.1.tool == "sum_minutes"

/-! ## Embedding creation and RAG search -/

/-- The body of the `for chunk in chunks` loop of
`create_openai_embeddings`: embeds each chunk in order; the first raised
exception aborts the whole loop. -/
def embed_all (embed : String → Except String (List Rat)) :
    List String → Except String (List ChunkEmbedding)
  | [] => Except.ok []
  | chunk :: rest =>
    match embed chunk with
    | Except.error e => Except.error e
    | Except.ok v =>
      match embed_all embed rest with
      | Except.error e => Except.error e
      | Except.ok l => Except.ok (ChunkEmbedding.mk chunk v :: l)

/-- `PdfRagApp.create_openai_embeddings`: the whole per-chunk loop sits in a
single `try`; any exception is caught and the function returns `[]`. -/
def create_openai_embeddings (embed : String → Except String (List Rat))
    (chunks : List String) : List ChunkEmbedding :=
  match embed_all embed chunks with
  | Except.ok l => l
  | Except.error _ => []

/-- `PdfRagApp.perform_rag_search`: a raised exception anywhere in the
ChromaDB block is caught and the first `max_results` input documents are
returned instead. -/
def perform_rag_search
    (search : List Document → String → Nat → Except String (List Document))
    (documents : List Document) (query : String) (max_results : Nat) :
    List Document :=
  match search documents query max_results with
  | Except.ok relevant_docs => relevant_docs
  | Except.error _ => documents.take max_results

/-! ## Entity extraction with bounded retry -/

/-- Outcome of one invocation of the structured-extraction chain:
success, an `OutputParserException` (schema-validation failure), or any
other exception. -/
inductive ChainOutcome where
  | ok : RecipeEntity → ChainOutcome
  | parse_error : String → ChainOutcome
  | other_error : String → ChainOutcome
deriving Repr, DecidableEq

/-- `.with_retry(retry_if_exception_type=(OutputParserException,),
stop_after_attempt=n)`: attempt `i`, retrying on `parse_error` only, while
more than one attempt remains; any other outcome is returned as-is, and the
last permitted attempt's outcome is returned as-is. -/
def run_with_retry (attempts : Nat → ChainOutcome) :
    Nat → Nat → ChainOutcome
  | 0, i => attempts i
  | 1, i => attempts i
  | Nat.succ (Nat.succ remaining), i =>
    match attempts i with
    | ChainOutcome.parse_error _ =>
      run_with_retry attempts (Nat.succ remaining) (i + 1)
    | outcome => outcome

/-- `PdfRagApp.generate_answer_with_agent`: builds the context block, runs
the chain with `stop_after_attempt=2`, and catches every exception
(exhausted parse failures included) returning `None`. -/
def generate_answer_with_agent (attempts : String → Nat → ChainOutcome)
    (relevant_chunks : List Document) : Option RecipeEntity :=
  let context := String.intercalate "\n\n"
    (relevant_chunks.map fun doc => "【文書内容】\n" ++ doc.page_content)
  match run_with_retry (attempts context) 2 0 with
  | ChainOutcome.ok recipe => some recipe
  | ChainOutcome.parse_error _ => none
  | ChainOutcome.other_error _ => none

/-- `PdfRagApp.extract_cooking_time_with_tools`: runs the tool-calling
agent on the context block; a raised exception yields `None`, otherwise the
result is whatever `_extract_sum_minutes_from_agent_result` recovers from
the trace. -/
def extract_cooking_time_with_tools
    (run_agent : String → Except String AgentResult)
    (time_related_segments : List Document) : Option Rat :=
  let context := String.intercalate "\n\n"
    (time_related_segments.map fun seg => "【文書内容】\n" ++ seg.page_content)
  match run_agent context with
  | Except.error _ => none
  | Except.ok result => extract_sum_minutes_from_agent_result result

/-! ## The workflow nodes -/

/-- `PdfRagApp._validate_recipe_pdf_node`: the whole try-block (download,
base64 encoding, chain invocation) is the oracle `attempt`; on success the
chain's `PdfValidationResult` is stored, on any exception a permissive
fallback (`is_recipe = true`) is stored instead. -/
def validate_recipe_pdf_node (attempt : Except String PdfValidationResult)
    (state : WorkflowState) : WorkflowState :=
  match attempt with
  | Except.ok validation_result =>
    { state with validation_result := some validation_result }
  | Except.error _ =>
    { state with validation_result := some ⟨true, "エラーが発生したため、処理を続行します"⟩ }

/-- `PdfRagApp._not_recipe_finish_node`: unconditionally stores
`RecipeExtractionResult(None, None)`. -/
def not_recipe_finish_node (state : WorkflowState) : WorkflowState :=
  { state with final_result := some ⟨none, none⟩ }

/-- `PdfRagApp._download_extract_pdf_node`: download, parse, store
`PdfContent(pdf_bytes, document.page_content)`; any exception sets
`error`. -/
def download_extract_pdf_node (download_bytes : Except String (List Nat))
    (parse_doc : List Nat → Except String Document)
    (state : WorkflowState) : WorkflowState :=
  match download_bytes with
  | Except.error e => { state with error := some e }
  | Except.ok pdf_bytes =>
    match parse_doc pdf_bytes with
    | Except.error e => { state with error := some e }
    | Except.ok document =>
      { state with pdf_content := some ⟨pdf_bytes, document.page_content⟩ }

/-- `PdfRagApp._split_chunks_node`: re-parses `pdf_content.pdf_bytes`
(accessing the field on `None` raises, caught into `error`), splits, and
stores `DocumentChunks`. -/
def split_chunks_node (parse_doc : List Nat → Except String Document)
    (split_doc : Document → Except String (List Document))
    (state : WorkflowState) : WorkflowState :=
  match state.pdf_content with
  | none =>
    { state with error := some "AttributeError: NoneType has no attribute pdf_bytes" }
  | some pdf_content =>
    match parse_doc pdf_content.pdf_bytes with
    | Except.error e => { state with error := some e }
    | Except.ok document =>
      match split_doc document with
      | Except.error e => { state with error := some e }
      | Except.ok text_segments =>
        { state with document_chunks := some ⟨pdf_content.extracted_text, text_segments⟩ }

/-- `PdfRagApp._create_embeddings_node`: reads
`document_chunks.text_segments` (raising on `None`, caught into `error`)
and stores `EmbeddedChunks` built from `create_openai_embeddings`. -/
def create_embeddings_node (embed : String → Except String (List Rat))
    (state : WorkflowState) : WorkflowState :=
  match state.document_chunks with
  | none =>
    { state with error := some "AttributeError: NoneType has no attribute text_segments" }
  | some document_chunks =>
    let chunk_texts := document_chunks.text_segments.map fun seg => seg.page_content
    let chunk_embeddings := create_openai_embeddings embed chunk_texts
    { state with embedded_chunks := some ⟨document_chunks.text_segments, chunk_embeddings⟩ }

/-- `PdfRagApp._find_relevant_chunks_node`: reads
`embedded_chunks.text_segments` (raising on `None`, caught into `error`)
and stores the top-5 RAG results for the recipe query. -/
def find_relevant_chunks_node
    (search : List Document → String → Nat → Except String (List Document))
    (state : WorkflowState) : WorkflowState :=
  match state.embedded_chunks with
  | none =>
    { state with error := some "AttributeError: NoneType has no attribute text_segments" }
  | some embedded_chunks =>
    let relevant_segments :=
      perform_rag_search search embedded_chunks.text_segments "レシピ名 材料 分量" 5
    { state with recipe_relevant_segments := some relevant_segments }

/-- `PdfRagApp._extract_recipe_entity_node`: with a truthy (present,
non-empty) `recipe_relevant_segments` list it calls
`generate_answer_with_agent`, otherwise it stores `None`. -/
def extract_recipe_entity_node (attempts : String → Nat → ChainOutcome)
    (state : WorkflowState) : WorkflowState :=
  match state.recipe_relevant_segments with
  | some relevant_segments =>
    if relevant_segments.isEmpty then
      { state with extracted_recipe := none }
    else
      { state with extracted_recipe := generate_answer_with_agent attempts relevant_segments }
  | none => { state with extracted_recipe := none }

/-- `PdfRagApp._extract_cooking_time_node`: reads
`embedded_chunks.text_segments` (raising on `None`, caught; the handler
stores `total_cooking_minutes = None`), runs the top-3 time-query RAG
search, and with a non-empty result stores the agent-extracted total. -/
def extract_cooking_time_node
    (search : List Document → String → Nat → Except String (List Document))
    (run_agent : String → Except String AgentResult)
    (state : WorkflowState) : WorkflowState :=
  match state.embedded_chunks with
  | none => { state with total_cooking_minutes := none }
  | some embedded_chunks =>
    let time_related_segments :=
      perform_rag_search search embedded_chunks.text_segments
        "時間 分 調理時間 作業時間 合計" 3
    if time_related_segments.isEmpty then
      { state with total_cooking_minutes := none }
    else
      { state with total_cooking_minutes := extract_cooking_time_with_tools run_agent time_related_segments }

/-- `PdfRagApp._create_final_result_node`. -/
def create_final_result_node (state : WorkflowState) : WorkflowState :=
  { state with final_result := some ⟨state.extracted_recipe, state.total_cooking_minutes⟩ }

/-- `PdfRagApp._should_continue_processing`: `"continue"` only when
`validation_result` is present (truthy) with `is_recipe` true, else
`"stop"`. -/
def should_continue_processing (state : WorkflowState) : String :=
  match state.validation_result with
  | some validation_result =>
    if validation_result.is_recipe then "continue" else "stop"
  | none => "stop"

/-! ## The compiled graph (`create_langgraph_workflow`) -/

/-- The nine named nodes added in `create_langgraph_workflow`. -/
inductive NodeName where
  | validate_recipe_pdf
  | not_recipe_finish
  | download_extract_pdf
  | split_chunks
  | create_embeddings
  | find_relevant_chunks
  | extract_recipe_entity
  | extract_cooking_time
  | create_final_result
deriving Repr, DecidableEq

/-- All external oracles a single run consumes. -/
structure Oracles where
  validate_chain : Except String PdfValidationResult
  download_bytes : Except String (List Nat)
  parse_doc : List Nat → Except String Document
  split_doc : Document → Except String (List Document)
  embed : String → Except String (List Rat)
  search : List Document → String → Nat → Except String (List Document)
  entity_attempts : String → Nat → ChainOutcome
  run_agent : String → Except String AgentResult

/-- Dispatch a node name to its node function. -/
def run_node (o : Oracles) : NodeName → WorkflowState → WorkflowState
  | NodeName.validate_recipe_pdf, s => validate_recipe_pdf_node o.validate_chain s
  | NodeName.not_recipe_finish, s => not_recipe_finish_node s
  | NodeName.download_extract_pdf, s =>
    download_extract_pdf_node o.download_bytes o.parse_doc s
  | NodeName.split_chunks, s => split_chunks_node o.parse_doc o.split_doc s
  | NodeName.create_embeddings, s => create_embeddings_node o.embed s
  | NodeName.find_relevant_chunks, s => find_relevant_chunks_node o.search s
  | NodeName.extract_recipe_entity, s => extract_recipe_entity_node o.entity_attempts s
  | NodeName.extract_cooking_time, s =>
    extract_cooking_time_node o.search o.run_agent s
  | NodeName.create_final_result, s => create_final_result_node s

/-- The edge set of `create_langgraph_workflow`: the conditional edge out
of `validate_recipe_pdf` maps `_should_continue_processing`'s label
(`"continue"`/`"stop"`, the only values it returns) to the next node, the
rest are the fixed sequential edges; `none` is the `END` sentinel. -/
def successor (n : NodeName) (s : WorkflowState) : Option NodeName :=
  match n with
  | NodeName.validate_recipe_pdf =>
    if should_continue_processing s = "continue" then
      some NodeName.download_extract_pdf
    else
      some NodeName.not_recipe_finish
  | NodeName.download_extract_pdf => some NodeName.split_chunks
  | NodeName.split_chunks => some NodeName.create_embeddings
  | NodeName.create_embeddings => some NodeName.find_relevant_chunks
  | NodeName.find_relevant_chunks => some NodeName.extract_recipe_entity
  | NodeName.extract_recipe_entity => some NodeName.extract_cooking_time
  | NodeName.extract_cooking_time => some NodeName.create_final_result
  | NodeName.create_final_result => none
  | NodeName.not_recipe_finish => none

/-- Sequential execution of the compiled graph: run the current node on the
current state, then follow its outgoing edge, collecting `(node,
state-after-node)` pairs until `END`.  The fuel bound only serves
structural recursion; the graph is acyclic with 9 nodes, so 10 units of
fuel are never exhausted. -/
def run_trace (o : Oracles) : Nat → NodeName → WorkflowState →
    List (NodeName × WorkflowState)
  | 0, _, _ => []
  | Nat.succ fuel, n, s =>
    let s2 := run_node o n s
    match successor n s2 with
    | none => [(n, s2)]
    | some m => (n, s2) :: run_trace o fuel m s2

/-- One full run of `execute_langgraph_workflow`'s compiled app from the
initial state. -/
def workflow_run (o : Oracles) (pdf_url : String) :
    List (NodeName × WorkflowState) :=
  run_trace o 10 NodeName.validate_recipe_pdf (initial_state pdf_url)

/-- The nodes at which `final_result` changed, walking the trace from a
given predecessor state. -/
def final_writes : WorkflowState → List (NodeName × WorkflowState) → List NodeName
  | _, [] => []
  | prev, (n, s) :: rest =>
    if s.final_result = prev.final_result then final_writes s rest
    else n :: final_writes s rest

/-! ## Helper lemmas: which fields each node can touch -/

@[simp]
theorem validate_node_final_result (attempt : Except String PdfValidationResult)
    (s : WorkflowState) :
    (validate_recipe_pdf_node attempt s).final_result = s.final_result := by
  cases attempt <;> rfl

@[simp]
theorem download_node_final_result (db : Except String (List Nat))
    (pd : List Nat → Except String Document) (s : WorkflowState) :
    (download_extract_pdf_node db pd s).final_result = s.final_result := by
  unfold download_extract_pdf_node
  split
  · rfl
  · split <;> rfl

@[simp]
theorem split_node_final_result (pd : List Nat → Except String Document)
    (sd : Document → Except String (List Document)) (s : WorkflowState) :
    (split_chunks_node pd sd s).final_result = s.final_result := by
  unfold split_chunks_node
  split
  · rfl
  · split
    · rfl
    · split <;> rfl

@[simp]
theorem embeddings_node_final_result (embed : String → Except String (List Rat))
    (s : WorkflowState) :
    (create_embeddings_node embed s).final_result = s.final_result := by
  unfold create_embeddings_node
  split <;> rfl

@[simp]
theorem find_chunks_node_final_result
    (search : List Document → String → Nat → Except String (List Document))
    (s : WorkflowState) :
    (find_relevant_chunks_node search s).final_result = s.final_result := by
  unfold find_relevant_chunks_node
  split <;> rfl

@[simp]
theorem entity_node_final_result (attempts : String → Nat → ChainOutcome)
    (s : WorkflowState) :
    (extract_recipe_entity_node attempts s).final_result = s.final_result := by
  unfold extract_recipe_entity_node
  split
  · split <;> rfl
  · rfl

@[simp]
theorem time_node_final_result
    (search : List Document → String → Nat → Except String (List Document))
    (run_agent : String → Except String AgentResult) (s : WorkflowState) :
    (extract_cooking_time_node search run_agent s).final_result = s.final_result := by
  unfold extract_cooking_time_node
  split
  · rfl
  · dsimp only
    split <;> rfl

@[simp]
theorem final_result_node_final_result (s : WorkflowState) :
    (create_final_result_node s).final_result =
      some ⟨s.extracted_recipe, s.total_cooking_minutes⟩ := rfl

@[simp]
theorem not_recipe_node_final_result (s : WorkflowState) :
    (not_recipe_finish_node s).final_result = some ⟨none, none⟩ := rfl

/-- `_should_continue_processing` only ever returns the two labels that the
conditional-edge map of `create_langgraph_workflow` knows. -/
theorem should_continue_values (s : WorkflowState) :
    should_continue_processing s = "continue" ∨
      should_continue_processing s = "stop" := by
  unfold should_continue_processing
  rcases s.validation_result with _ | vr
  · right; rfl
  · by_cases h : vr.is_recipe = true
    · left; simp [h]
    · right; simp [h]

/-- Step lemma: a node with a live outgoing edge prepends itself to the
trace of its successor. -/
theorem run_trace_succ (o : Oracles) (fuel : Nat) (n m : NodeName)
    (s : WorkflowState) (h : successor n (run_node o n s) = some m) :
    run_trace o (fuel + 1) n s =
      (n, run_node o n s) :: run_trace o fuel m (run_node o n s) := by
  simp [run_trace, h]

/-- Step lemma: a node whose outgoing edge is `END` closes the trace. -/
theorem run_trace_end (o : Oracles) (fuel : Nat) (n : NodeName)
    (s : WorkflowState) (h : successor n (run_node o n s) = none) :
    run_trace o (fuel + 1) n s = [(n, run_node o n s)] := by
  simp [run_trace, h]

/-! ## Claims about the conditional branch -/

/-- C1 (claim as stated is false): in a state whose `validation_result` is
absent, `_should_continue_processing` returns `"stop"`, not `"continue"`:
the concrete initial state refutes the claimed fail-open default. -/
theorem C1_counterexample :
    should_continue_processing (initial_state "https://example.com/recipe05.pdf") = "stop" ∧
    ("stop" : String) ≠ "continue" := by
  exact ⟨rfl, by decide⟩

/-- C1 (amended): for every workflow state in which `validation_result` is
absent, `_should_continue_processing` returns `"stop"`, routing to
`not_recipe_finish` — fail-closed at the classifier. -/
theorem C1_amended_absent_routes_stop (s : WorkflowState)
    (h : s.validation_result = none) :
    should_continue_processing s = "stop" := by
  unfold should_continue_processing
  rw [h]

/-- C1 witness: the amended theorem applied to the concrete initial state. -/
theorem C1_amended_witness :
    should_continue_processing (initial_state "https://example.com/a.pdf") = "stop" :=
  C1_amended_absent_routes_stop (initial_state "https://example.com/a.pdf") rfl

/-- C5: with `validation_result` present, `_should_continue_processing`
returns `"continue"` exactly when `is_recipe` is true and `"stop"` exactly
when it is false. -/
theorem C5_branch_on_validation (s : WorkflowState) (vr : PdfValidationResult)
    (h : s.validation_result = some vr) :
    should_continue_processing s = (if vr.is_recipe then "continue" else "stop") := by
  unfold should_continue_processing
  rw [h]

/-- C5 witness: the branch theorem applied at a recipe state and at a
non-recipe state. -/
theorem C5_branch_witness :
    should_continue_processing
      { initial_state "u" with validation_result := some ⟨true, "レシピ"⟩ } = "continue" ∧
    should_continue_processing
      { initial_state "u" with validation_result := some ⟨false, "論文"⟩ } = "stop" := by
  constructor
  · simpa using C5_branch_on_validation
      { initial_state "u" with validation_result := some ⟨true, "レシピ"⟩ } ⟨true, "レシピ"⟩ rfl
  · simpa using C5_branch_on_validation
      { initial_state "u" with validation_result := some ⟨false, "論文"⟩ } ⟨false, "論文"⟩ rfl

/-- C6: for every input state, on any internal failure the validate node
returns a state whose `validation_result` is present with `is_recipe =
true` and a non-empty reason; and for every outcome of the internals the
stored `validation_result` is present, so the downstream branch always has
a decidable value. -/
theorem C6_validate_fallback (e : String)
    (attempt : Except String PdfValidationResult) (s : WorkflowState) :
    (validate_recipe_pdf_node (Except.error e) s).validation_result =
      some ⟨true, "エラーが発生したため、処理を続行します"⟩ ∧
    ("エラーが発生したため、処理を続行します" : String) ≠ "" ∧
    (validate_recipe_pdf_node attempt s).validation_result.isSome = true := by
  refine ⟨rfl, by decide, ?_⟩
  cases attempt <;> rfl

/-- C7: the `not_recipe_finish` node sets `final_result` to
`{None, None}` for every input state, however the upstream fields are
populated. -/
theorem C7_rejection_purity (s : WorkflowState) :
    (not_recipe_finish_node s).final_result = some ⟨none, none⟩ := rfl

/-! ## Claims about tool-call interception (C2) -/

/-- A successful `first_sum_minutes_call` really found a `sum_minutes`
tool-call record with those literal arguments. -/
theorem first_sum_minutes_call_mem (tcs : List ToolCall) (args : List Rat)
    (h : first_sum_minutes_call tcs = some args) :
    ToolCall.mk "sum_minutes" args ∈ tcs := by
  induction tcs with
  | nil => simp [first_sum_minutes_call] at h
  | cons tc rest ih =>
    unfold first_sum_minutes_call at h
    by_cases hn : tc.name = "sum_minutes"
    · rw [if_pos hn] at h
      obtain rfl : tc.args = args := by injection h
      have htc : ToolCall.mk "sum_minutes" tc.args = tc := by
        cases tc
        simp_all
      rw [htc]
      exact List.mem_cons_self _ _
    · rw [if_neg hn] at h
      exact List.mem_cons_of_mem _ (ih h)

/-- A successful scan of the intermediate steps comes from an actual
`sum_minutes` invocation record, and the reported value is `sum_minutes`
re-executed on that record's literal arguments. -/
theorem scan_steps_some (steps : List (AgentAction × String)) (t : Rat)
    (h : scan_steps_for_sum_minutes steps = some t) :
    ∃ action obs args message,
      (action, obs) ∈ steps ∧ action.tool = "sum_minutes" ∧
      message ∈ action.message_log ∧
      ToolCall.mk "sum_minutes" args ∈ message.tool_calls ∧
      t = sum_minutes args := by
  induction steps with
  | nil => simp [scan_steps_for_sum_minutes] at h
  | cons step rest ih =>
    obtain ⟨action, obs⟩ := step
    unfold scan_steps_for_sum_minutes at h
    by_cases ht : action.tool = "sum_minutes"
    · rw [if_pos ht] at h
      rcases hml : action.message_log with _ | ⟨message, more⟩
      · simp only [hml] at h
        obtain ⟨a, ob, ar, m, hmem, h1, h2, h3, h4⟩ := ih h
        exact ⟨a, ob, ar, m, List.mem_cons_of_mem _ hmem, h1, h2, h3, h4⟩
      · simp only [hml] at h
        rcases hfc : first_sum_minutes_call message.tool_calls with _ | args
        · simp only [hfc] at h
          obtain ⟨a, ob, ar, m, hmem, h1, h2, h3, h4⟩ := ih h
          exact ⟨a, ob, ar, m, List.mem_cons_of_mem _ hmem, h1, h2, h3, h4⟩
        · simp only [hfc] at h
          obtain rfl : sum_minutes args = t := by injection h
          refine ⟨action, obs, args, message, List.mem_cons_self _ _, ht, ?_,
            first_sum_minutes_call_mem _ _ hfc, rfl⟩
          rw [hml]
          exact List.mem_cons_self _ _
    · rw [if_neg ht] at h
      obtain ⟨a, ob, ar, m, hmem, h1, h2, h3, h4⟩ := ih h
      exact ⟨a, ob, ar, m, List.mem_cons_of_mem _ hmem, h1, h2, h3, h4⟩

/-- A trace none of whose actions names `sum_minutes` yields nothing. -/
theorem scan_steps_none (steps : List (AgentAction × String))
    (h : ∀ step ∈ steps, step.1.tool ≠ "sum_minutes") :
    scan_steps_for_sum_minutes steps = none := by
  induction steps with
  | nil => rfl
  | cons step rest ih =>
    obtain ⟨action, obs⟩ := step
    unfold scan_steps_for_sum_minutes
    rw [if_neg (h (action, obs) (List.mem_cons_self _ _))]
    exact ih fun st hst => h st (List.mem_cons_of_mem _ hst)

/-- C2: (a) a trace with no `sum_minutes` invocation yields `None`; (b) a
reported total always comes from re-executing `sum_minutes` on the literal
argument list of a `sum_minutes` tool-call record found in the trace;
(c) the result never depends on the model's free-text `output`; and (d) on
arguments `[10, 15, 5]` the deterministic sum is exactly `30`. -/
theorem C2_tool_sum_fidelity :
    (∀ result : AgentResult, trace_has_sum_minutes result = false →
      extract_sum_minutes_from_agent_result result = none) ∧
    (∀ (result : AgentResult) (t : Rat),
      extract_sum_minutes_from_agent_result result = some t →
      ∃ action obs args message,
        (action, obs) ∈ result.intermediate_steps ∧
        action.tool = "sum_minutes" ∧
        message ∈ action.message_log ∧
        ToolCall.mk "sum_minutes" args ∈ message.tool_calls ∧
        t = sum_minutes args) ∧
    (∀ (steps : List (AgentAction × String)) (out1 out2 : String),
      extract_sum_minutes_from_agent_result ⟨out1, steps⟩ =
        extract_sum_minutes_from_agent_result ⟨out2, steps⟩) ∧
    sum_minutes [10, 15, 5] = 30 := by
  refine ⟨?_, ?_, ?_, ?_⟩
  · intro result h
    apply scan_steps_none
    intro step hstep
    have := List.any_eq_false.mp h step hstep
    simpa using this
  · intro result t h
    exact scan_steps_some _ _ h
  · intro steps out1 out2
    rfl
  · norm_num [sum_minutes, List.sum_cons, List.sum_nil]

/-- A concrete agent interaction: the model called `sum_minutes` with
`[10, 15, 5]` and its prose output claims a different number. -/
def sample_agent_trace : AgentResult :=
  { output := "合計はだいたい42分です"
    intermediate_steps :=
      [(⟨"sum_minutes", [⟨[⟨"sum_minutes", [10, 15, 5]⟩]⟩]⟩, "30.0")] }

/-- C2 witness: on the concrete trace the reported total is `30`, on a
trace without a `sum_minutes` invocation it is `None`, and the structured
record behind the `30` exists. -/
theorem C2_tool_sum_witness :
    extract_sum_minutes_from_agent_result sample_agent_trace = some 30 ∧
    extract_sum_minutes_from_agent_result ⟨"答えは30分です", []⟩ = none ∧
    (∃ action obs args message,
      (action, obs) ∈ sample_agent_trace.intermediate_steps ∧
      action.tool = "sum_minutes" ∧
      message ∈ action.message_log ∧
      ToolCall.mk "sum_minutes" args ∈ message.tool_calls ∧
      (30 : Rat) = sum_minutes args) := by
  have h30 : extract_sum_minutes_from_agent_result sample_agent_trace = some 30 := by
    show some (sum_minutes [10, 15, 5]) = some 30
    norm_num [sum_minutes, List.sum_cons, List.sum_nil]
  refine ⟨h30, C2_tool_sum_fidelity.1 ⟨"答えは30分です", []⟩ rfl,
    C2_tool_sum_fidelity.2.1 sample_agent_trace 30 h30⟩

/-! ## Claims about embedding-failure isolation (C3) -/

/-- An embedding oracle failing on `"a"` and succeeding elsewhere. -/
def embed_fail_on_a : String → Except String (List Rat) :=
  fun s => if s = "a" then Except.error "embedding failed" else Except.ok [1]

/-- C3 (claim as stated is false): with two segments where embedding fails
for the first and succeeds for the second, `create_openai_embeddings`
returns `[]` — the successful segment's pair is dropped too, so failures
are not isolated per segment. -/
theorem C3_counterexample :
    create_openai_embeddings embed_fail_on_a ["a", "b"] = [] ∧
    embed_fail_on_a "b" = Except.ok [1] ∧
    ([] : List ChunkEmbedding) ≠ [ChunkEmbedding.mk "b" [1]] := by
  refine ⟨rfl, rfl, by simp⟩

/-- When every chunk embeds successfully, `embed_all` returns one pair per
chunk, in order. -/
theorem embed_all_ok (embed : String → Except String (List Rat))
    (chunks : List String) (h : ∀ c ∈ chunks, (embed c).isOk = true) :
    embed_all embed chunks =
      Except.ok (chunks.map fun c => ChunkEmbedding.mk c ((embed c).toOption.getD [])) := by
  induction chunks with
  | nil => rfl
  | cons c rest ih =>
    have hc := h c (List.mem_cons_self _ _)
    rcases hv : embed c with e | v
    · rw [hv] at hc
      simp [Except.isOk, Except.toBool] at hc
    · unfold embed_all
      rw [hv, ih fun x hx => h x (List.mem_cons_of_mem _ hx)]
      simp [hv, Except.toOption]

/-- When some chunk's embedding raises, `embed_all` raises. -/
theorem embed_all_fail (embed : String → Except String (List Rat))
    (chunks : List String) (h : ∃ c ∈ chunks, (embed c).isOk = false) :
    ∃ e, embed_all embed chunks = Except.error e := by
  induction chunks with
  | nil => simp at h
  | cons c rest ih =>
    unfold embed_all
    rcases hv : embed c with e | v
    · exact ⟨e, rfl⟩
    · obtain ⟨x, hx, hbad⟩ := h
      rcases List.mem_cons.mp hx with rfl | hx2
      · rw [hv] at hbad
        simp [Except.isOk, Except.toBool] at hbad
      · obtain ⟨e, he⟩ := ih ⟨x, hx2, hbad⟩
        rw [he]
        exact ⟨e, rfl⟩

/-- C3 (amended): embedding failures are not isolated per segment — if any
segment's embedding raises, `create_openai_embeddings` returns the empty
list, dropping every segment's pair including the successful ones; only
when every embedding succeeds are the `(text, vector)` pairs returned, one
per segment in order. -/
theorem C3_amended_all_or_nothing (embed : String → Except String (List Rat))
    (chunks : List String) :
    ((∀ c ∈ chunks, (embed c).isOk = true) →
      create_openai_embeddings embed chunks =
        chunks.map fun c => ChunkEmbedding.mk c ((embed c).toOption.getD [])) ∧
    ((∃ c ∈ chunks, (embed c).isOk = false) →
      create_openai_embeddings embed chunks = []) := by
  constructor
  · intro h
    unfold create_openai_embeddings
    rw [embed_all_ok embed chunks h]
  · intro h
    obtain ⟨e, he⟩ := embed_all_fail embed chunks h
    unfold create_openai_embeddings
    rw [he]

/-- C3 witness: the amended theorem applied to an all-successful batch and
to the partially failing batch of the counterexample. -/
theorem C3_amended_witness :
    create_openai_embeddings (fun _ => Except.ok [2]) ["x", "y"] =
      [ChunkEmbedding.mk "x" [2], ChunkEmbedding.mk "y" [2]] ∧
    create_openai_embeddings embed_fail_on_a ["a", "b"] = [] := by
  constructor
  · have h := (C3_amended_all_or_nothing (fun _ => Except.ok [2]) ["x", "y"]).1
      (by intro c hc; rfl)
    simpa using h
  · exact (C3_amended_all_or_nothing embed_fail_on_a ["a", "b"]).2
      ⟨"a", by simp, rfl⟩

/-! ## Claims about absent `embedded_chunks` in the retrieval steps (C4) -/

/-- C4 (claim as stated is false): with `embedded_chunks` absent, the
entity-retrieval node does not produce an empty relevant-segment list — it
leaves `recipe_relevant_segments` absent (`none`, which differs from
`some []`) and records an error instead. -/
theorem C4_counterexample :
    (find_relevant_chunks_node (fun _ _ _ => Except.ok []) (initial_state "u4")).recipe_relevant_segments = none ∧
    (none : Option (List Document)) ≠ some ([] : List Document) ∧
    (find_relevant_chunks_node (fun _ _ _ => Except.ok []) (initial_state "u4")).error.isSome = true := by
  exact ⟨rfl, by simp, rfl⟩

/-- C4 (amended): for every workflow state in which `embedded_chunks` is
absent, neither retrieval step lets the exception escape — the
entity-retrieval node records an error and leaves
`recipe_relevant_segments` unchanged (still absent), and the time-retrieval
step sets `total_cooking_minutes` to `None` without touching `error`. -/
theorem C4_amended_absent_chunks
    (search1 search2 : List Document → String → Nat → Except String (List Document))
    (run_agent : String → Except String AgentResult)
    (s : WorkflowState) (h : s.embedded_chunks = none) :
    (find_relevant_chunks_node search1 s).recipe_relevant_segments = s.recipe_relevant_segments ∧
    (find_relevant_chunks_node search1 s).error.isSome = true ∧
    (extract_cooking_time_node search2 run_agent s).total_cooking_minutes = none ∧
    (extract_cooking_time_node search2 run_agent s).error = s.error := by
  unfold find_relevant_chunks_node extract_cooking_time_node
  rw [h]
  exact ⟨rfl, rfl, rfl, rfl⟩

/-- C4 witness: the amended theorem applied at the concrete initial state
(whose `embedded_chunks` is absent) with concrete oracles. -/
theorem C4_amended_witness :
    (find_relevant_chunks_node (fun _ _ _ => Except.ok []) (initial_state "u5")).recipe_relevant_segments = (initial_state "u5").recipe_relevant_segments ∧
    (find_relevant_chunks_node (fun _ _ _ => Except.ok []) (initial_state "u5")).error.isSome = true ∧
    (extract_cooking_time_node (fun _ _ _ => Except.ok []) (fun _ => Except.error "no agent") (initial_state "u5")).total_cooking_minutes = none ∧
    (extract_cooking_time_node (fun _ _ _ => Except.ok []) (fun _ => Except.error "no agent") (initial_state "u5")).error = (initial_state "u5").error :=
  C4_amended_absent_chunks (fun _ _ _ => Except.ok []) (fun _ _ _ => Except.ok [])
    (fun _ => Except.error "no agent") (initial_state "u5") rfl

/-! ## Claims about the bounded entity-extraction retry (C8) -/

/-- The two-attempt retry wrapper in closed form: retry happens exactly
when the first attempt is a schema-validation failure. -/
theorem run_with_retry_two (a : Nat → ChainOutcome) :
    run_with_retry a 2 0 =
      match a 0 with
      | ChainOutcome.parse_error _ => a 1
      | outcome => outcome := by
  show run_with_retry a (Nat.succ (Nat.succ 0)) 0 = _
  unfold run_with_retry
  rcases h : a 0 with r | e | e <;> simp [h, run_with_retry]

/-- C8: the extraction chain is retried only on schema-validation
(output-parsing) failure with at most 2 attempts total — (a) a parse
failure followed by a valid attempt yields that entity; (b) any other
first-attempt exception yields `None` with no retry, whatever the later
attempts would return; (c) exhausting both attempts on parse failures
yields `None`, whatever a third attempt would return; (d) a reported
entity always is the value of a successful attempt among the first two —
never a partially filled one. -/
theorem C8_retry_policy :
    (∀ (attempts : String → Nat → ChainOutcome) (segs : List Document)
        (e : String) (r : RecipeEntity),
        (∀ ctx, attempts ctx 0 = ChainOutcome.parse_error e) →
        (∀ ctx, attempts ctx 1 = ChainOutcome.ok r) →
        generate_answer_with_agent attempts segs = some r) ∧
    (∀ (attempts : String → Nat → ChainOutcome) (segs : List Document)
        (e : String),
        (∀ ctx, attempts ctx 0 = ChainOutcome.other_error e) →
        generate_answer_with_agent attempts segs = none) ∧
    (∀ (attempts : String → Nat → ChainOutcome) (segs : List Document)
        (e1 e2 : String),
        (∀ ctx, attempts ctx 0 = ChainOutcome.parse_error e1) →
        (∀ ctx, attempts ctx 1 = ChainOutcome.parse_error e2) →
        generate_answer_with_agent attempts segs = none) ∧
    (∀ (attempts : String → Nat → ChainOutcome) (segs : List Document)
        (r : RecipeEntity),
        generate_answer_with_agent attempts segs = some r →
        ∃ ctx i, i < 2 ∧ attempts ctx i = ChainOutcome.ok r) := by
  refine ⟨?_, ?_, ?_, ?_⟩
  · intro attempts segs e r h0 h1
    unfold generate_answer_with_agent
    dsimp only
    rw [run_with_retry_two, h0, h1]
  · intro attempts segs e h0
    unfold generate_answer_with_agent
    dsimp only
    rw [run_with_retry_two, h0]
  · intro attempts segs e1 e2 h0 h1
    unfold generate_answer_with_agent
    dsimp only
    rw [run_with_retry_two, h0, h1]
  · intro attempts segs r h
    unfold generate_answer_with_agent at h
    dsimp only at h
    rw [run_with_retry_two] at h
    rcases h0 : attempts (String.intercalate "\n\n"
        (segs.map fun doc => "【文書内容】\n" ++ doc.page_content)) 0 with r0 | e0 | e0 <;>
      simp only [h0] at h
    · obtain rfl : r0 = r := by injection h
      exact ⟨_, 0, by norm_num, h0⟩
    · rcases h1 : attempts (String.intercalate "\n\n"
          (segs.map fun doc => "【文書内容】\n" ++ doc.page_content)) 1 with r1 | e1 | e1 <;>
        simp only [h1] at h
      · obtain rfl : r1 = r := by injection h
        exact ⟨_, 1, by norm_num, h1⟩
      · exact Option.noConfusion h
      · exact Option.noConfusion h
    · exact Option.noConfusion h

/-- C8 witness: a parse failure then a success yields the recipe; a
transport error on the first attempt yields `None` even though the second
attempt would have succeeded; two parse failures yield `None` even though
a third attempt would have succeeded. -/
theorem C8_retry_witness :
    generate_answer_with_agent
      (fun _ i => if i = 0 then ChainOutcome.parse_error "schema"
        else ChainOutcome.ok ⟨"カレーライス", []⟩) [] = some ⟨"カレーライス", []⟩ ∧
    generate_answer_with_agent
      (fun _ i => if i = 0 then ChainOutcome.other_error "transport"
        else ChainOutcome.ok ⟨"カレーライス", []⟩) [] = none ∧
    generate_answer_with_agent
      (fun _ i => if i ≤ 1 then ChainOutcome.parse_error "schema"
        else ChainOutcome.ok ⟨"カレーライス", []⟩) [] = none := by
  refine ⟨?_, ?_, ?_⟩
  · exact C8_retry_policy.1 _ [] "schema" ⟨"カレーライス", []⟩
      (fun _ => rfl) (fun _ => rfl)
  · exact C8_retry_policy.2.1 _ [] "transport" (fun _ => rfl)
  · exact C8_retry_policy.2.2.1 _ [] "schema" "schema"
      (fun _ => rfl) (fun _ => rfl)

/-! ## Claims about the RAG-search fallback (C10) -/

/-- C10 (claim as stated is false): with an empty input document list and a
raising similarity search, `perform_rag_search` returns the empty list —
contradicting the claim that the fallback is never empty. -/
theorem C10_counterexample :
    perform_rag_search (fun _ _ _ => Except.error "ChromaDB failure")
      ([] : List Document) "時間 分 調理時間 作業時間 合計" 3 = [] := rfl

/-- C10 (amended): when the similarity search raises, `perform_rag_search`
does not propagate the exception and returns the first `max_results` input
documents in their original input order; this fallback is non-empty
whenever the input list is non-empty and `max_results` is positive (and is
empty for an empty input list). -/
theorem C10_amended_fallback
    (search : List Document → String → Nat → Except String (List Document))
    (documents : List Document) (query : String) (max_results : Nat)
    (e : String) (h : search documents query max_results = Except.error e) :
    perform_rag_search search documents query max_results =
      documents.take max_results ∧
    (documents ≠ [] → 0 < max_results →
      perform_rag_search search documents query max_results ≠ []) := by
  have hmain : perform_rag_search search documents query max_results =
      documents.take max_results := by
    unfold perform_rag_search
    rw [h]
  refine ⟨hmain, fun hne hk => ?_⟩
  rw [hmain]
  rcases documents with _ | ⟨d, rest⟩
  · exact absurd rfl hne
  · rcases max_results with _ | k
    · exact absurd hk (by norm_num)
    · simp [List.take]

/-- C10 witness: the amended theorem applied to a concrete raising search
over a one-document list. -/
theorem C10_amended_witness :
    perform_rag_search (fun _ _ _ => Except.error "err")
      [Document.mk "第一段落"] "クエリ" 3 = [Document.mk "第一段落"] ∧
    perform_rag_search (fun _ _ _ => Except.error "err")
      [Document.mk "第一段落"] "クエリ" 3 ≠ [] := by
  have h := C10_amended_fallback (fun _ _ _ => Except.error "err")
    [Document.mk "第一段落"] "クエリ" 3 "err" rfl
  exact ⟨by simpa using h.1, h.2 (by simp) (by norm_num)⟩

/-! ## Claim C9: terminal exclusivity of the compiled graph -/

/-- Composite state after running a list of nodes in order. -/
def apply_nodes (o : Oracles) (ns : List NodeName) (s : WorkflowState) : WorkflowState :=
  ns.foldl (fun st n => run_node o n st) s

/-- First step of a 10-fuel run. -/
theorem run_trace_ten (o : Oracles) (n m : NodeName) (s : WorkflowState)
    (h : successor n (run_node o n s) = some m) :
    run_trace o 10 n s = (n, run_node o n s) :: run_trace o 9 m (run_node o n s) :=
  run_trace_succ o 9 n m s h

/-- The continue branch after `validate_recipe_pdf` is the fixed
seven-node sequential tail ending in `create_final_result`. -/
theorem run_trace_download_tail (o : Oracles) (s : WorkflowState) :
    run_trace o 9 NodeName.download_extract_pdf s =
      [(NodeName.download_extract_pdf,
          apply_nodes o [NodeName.download_extract_pdf] s),
       (NodeName.split_chunks,
          apply_nodes o [NodeName.download_extract_pdf, NodeName.split_chunks] s),
       (NodeName.create_embeddings,
          apply_nodes o [NodeName.download_extract_pdf, NodeName.split_chunks,
            NodeName.create_embeddings] s),
       (NodeName.find_relevant_chunks,
          apply_nodes o [NodeName.download_extract_pdf, NodeName.split_chunks,
            NodeName.create_embeddings, NodeName.find_relevant_chunks] s),
       (NodeName.extract_recipe_entity,
          apply_nodes o [NodeName.download_extract_pdf, NodeName.split_chunks,
            NodeName.create_embeddings, NodeName.find_relevant_chunks,
            NodeName.extract_recipe_entity] s),
       (NodeName.extract_cooking_time,
          apply_nodes o [NodeName.download_extract_pdf, NodeName.split_chunks,
            NodeName.create_embeddings, NodeName.find_relevant_chunks,
            NodeName.extract_recipe_entity, NodeName.extract_cooking_time] s),
       (NodeName.create_final_result,
          apply_nodes o [NodeName.download_extract_pdf, NodeName.split_chunks,
            NodeName.create_embeddings, NodeName.find_relevant_chunks,
            NodeName.extract_recipe_entity, NodeName.extract_cooking_time,
            NodeName.create_final_result] s)] := rfl

/-- The stop branch after `validate_recipe_pdf` runs only
`not_recipe_finish` and ends. -/
theorem run_trace_not_recipe_tail (o : Oracles) (s : WorkflowState) :
    run_trace o 9 NodeName.not_recipe_finish s =
      [(NodeName.not_recipe_finish, run_node o NodeName.not_recipe_finish s)] := rfl

/-- C9: in every run of the compiled graph, exactly one of the two terminal
nodes (`create_final_result` / `not_recipe_finish`) appears in the executed
trace; `final_result` changes exactly once along the run, at that terminal
node, which is also the last node executed. -/
theorem C9_terminal_exclusivity (o : Oracles) (url : String) :
    (((workflow_run o url).map Prod.fst).count NodeName.create_final_result +
      ((workflow_run o url).map Prod.fst).count NodeName.not_recipe_finish = 1) ∧
    (∃ t, (t = NodeName.create_final_result ∨ t = NodeName.not_recipe_finish) ∧
      final_writes (initial_state url) (workflow_run o url) = [t] ∧
      ((workflow_run o url).map Prod.fst).getLast? = some t) := by
  unfold workflow_run
  rcases should_continue_values (run_node o NodeName.validate_recipe_pdf (initial_state url))
    with hc | hc
  · have h1 : successor NodeName.validate_recipe_pdf
        (run_node o NodeName.validate_recipe_pdf (initial_state url)) =
        some NodeName.download_extract_pdf := by
      unfold successor
      rw [hc]
      decide
    rw [run_trace_ten o NodeName.validate_recipe_pdf NodeName.download_extract_pdf
        (initial_state url) h1, run_trace_download_tail]
    refine ⟨by rfl, NodeName.create_final_result, Or.inl rfl, ?_, by rfl⟩
    simp [final_writes, apply_nodes, run_node, initial_state]
  · have h1 : successor NodeName.validate_recipe_pdf
        (run_node o NodeName.validate_recipe_pdf (initial_state url)) =
        some NodeName.not_recipe_finish := by
      unfold successor
      rw [hc]
      decide
    rw [run_trace_ten o NodeName.validate_recipe_pdf NodeName.not_recipe_finish
        (initial_state url) h1, run_trace_not_recipe_tail]
    refine ⟨by rfl, NodeName.not_recipe_finish, Or.inr rfl, ?_, by rfl⟩
    simp [final_writes, run_node, initial_state]

end KoogSample
